import Mathlib

/-!
A shallow embedding of the deterministic rule engine of this repository
(src/rule_engine.py), together with the response-model validation layer of
src/models.py that the engine's `ACControl(...)` constructor calls run
through (pydantic `Literal` fields and the `ge=10, le=32` bound on `temp`).

Numeric conventions: Python floats are idealised as exact arithmetic over a
linear ordered field (`ℚ` on the discrete policy paths, `ℝ` where the code
uses `math.exp`, `math.sqrt` or a fractional power).  Python's built-in
`round` — banker's rounding, used by the engine both bare and with an
`ndigits` argument — is modelled exactly by `pyRound`, including the
round-half-to-even tie rule.  The free-text `description` and
`recommendation` fields of `EnvIssue` are narrative strings consumed only by
the out-of-scope narration collaborator and are not modelled; the `factor`
and `severity` fields are.
-/

namespace RuleEngine

variable {α : Type*} [LinearOrderedField α] [FloorRing α]

/-- Python `round(x)`: nearest integer, ties to the even neighbour. -/
def pyRound (x : α) : ℤ :=
  if x - ⌊x⌋ < 1 / 2 then ⌊x⌋
  else if 1 / 2 < x - ⌊x⌋ then ⌊x⌋ + 1
  else if ⌊x⌋ % 2 = 0 then ⌊x⌋ else ⌊x⌋ + 1

/-- Python `round(x, 1)`. -/
def pyRound1 (x : α) : α := (pyRound (x * 10) : α) / 10

/-- Python `round(x, 2)`. -/
def pyRound2 (x : α) : α := (pyRound (x * 100) : α) / 100

/-- models.py line 32: `ACMode = Literal["cool", "fan", "dry", "heat"]`. -/
def ACMode_values : List String := ["cool", "fan", "dry", "heat"]

/-- models.py line 33: `ACFanSpeed = Literal["low", "medium", "high", "auto", "quiet"]`. -/
def ACFanSpeed_values : List String := ["low", "medium", "high", "auto", "quiet"]

/-- The three arguments rule_engine.py passes to each `ACControl(...)` call. -/
structure ACControlFields where
  temp : ℤ
  mode : String
  fan : String
deriving DecidableEq

/-- A pydantic validation failure when constructing `ACControl`. -/
inductive ModelError where
  | tempRange (t : ℤ)
  | badMode (m : String)
  | badFan (f : String)
deriving DecidableEq

/-- models.py `ACControl`: pydantic validates the fields against their
declared types (`temp` with `ge=10, le=32`, then the two `Literal` fields)
before the clamping `field_validator` could run.  pydantic reports every
failing field at once; this model keeps the first failure, which suffices
here. -/
def ACControl_validate (t : ℤ) (m f : String) : Except ModelError ACControlFields :=
  if ¬ (10 ≤ t ∧ t ≤ 32) then .error (.tempRange t)
  else if m ∉ ACMode_values then .error (.badMode m)
  else if f ∉ ACFanSpeed_values then .error (.badFan f)
  else .ok ⟨t, m, f⟩

/-- One row of `REFERENCE_TABLE`:
`(occ_min, occ_max, target_temp, hum_min, hum_max, lux, noise_max)`. -/
structure RefRow (α : Type*) where
  occ_min : ℤ
  occ_max : ℤ
  target_temp : α
  hum_min : α
  hum_max : α
  lux : α
  noise_max : α
deriving DecidableEq

/-- rule_engine.py lines 56-63. -/
def REFERENCE_TABLE : List (RefRow α) :=
  [⟨0, 0, 24.0, 50, 50, 450, 45⟩,
   ⟨1, 10, 23.5, 45, 55, 400, 45⟩,
   ⟨11, 18, 25.0, 45, 55, 420, 45⟩,
   ⟨19, 25, 26.5, 56, 65, 380, 55⟩,
   ⟨26, 30, 27.1, 66, 70, 550, 55⟩,
   ⟨31, 999, 28.5, 71, 75, 600, 60⟩]

/-- `get_reference_for_occupancy`: the first row whose inclusive occupancy
range contains `occupancy`, else the fallback `REFERENCE_TABLE[-1]`. -/
def get_reference_for_occupancy (occupancy : ℤ) : RefRow α :=
  match (REFERENCE_TABLE (α := α)).find?
      (fun r => decide (r.occ_min ≤ occupancy ∧ occupancy ≤ r.occ_max)) with
  | some r => r
  | none => ⟨31, 999, 28.5, 71, 75, 600, 60⟩

/-- rule_engine.py lines 81-86. -/
def PPD_STATUS_MAP : List (α × α × String) :=
  [(0, 10, "Ideal"), (10, 25, "Optimalisasi"), (25, 50, "Peringatan"), (50, 100, "Kritis")]

/-- The `for ppd_min, ppd_max, status in PPD_STATUS_MAP` loop of
`get_status_from_ppd`, with its membership test
`ppd_min < ppd <= ppd_max or (ppd_min == 0 and ppd <= ppd_max)` and the
fall-through `return "Kritis"`. -/
def status_scan : List (α × α × String) → α → String
  | [], _ => "Kritis"
  | (ppd_min, ppd_max, status) :: rest, ppd =>
    if (ppd_min < ppd ∧ ppd ≤ ppd_max) ∨ (ppd_min = 0 ∧ ppd ≤ ppd_max) then status
    else status_scan rest ppd

/-- rule_engine.py lines 224-237. -/
def get_status_from_ppd (ppd : α) (occupancy : ℤ) : String :=
  if occupancy = 0 then "Boros Energi"
  else status_scan PPD_STATUS_MAP ppd

/-- rule_engine.py `EnvIssue` dataclass, narrative strings omitted (see the
file comment). -/
structure EnvIssue where
  factor : String
  severity : String
deriving DecidableEq

/-- The `breakdown` dict of `calculate_env_score`
(keys "lighting", "noise", "humidity", inserted in that order). -/
structure EnvBreakdown (α : Type*) where
  lighting : α
  noise : α
  humidity : α
deriving DecidableEq

/-- `calculate_env_score`, lighting sub-score (lines 273-281). -/
def lighting_score (lux_actual lux_target : α) : α :=
  let lux_deviation := |lux_actual - lux_target|
  if lux_deviation ≤ 50 then 100
  else if lux_deviation ≤ 100 then 80
  else if lux_deviation ≤ 200 then 60
  else max 0 (100 - lux_deviation / 5)

/-- `calculate_env_score`, lighting issue detection (lines 285-300). -/
def lighting_issues (lux_actual lux_target : α) : List EnvIssue :=
  if lux_actual < lux_target - 100 then
    [⟨"lighting", if lux_actual < lux_target - 200 then "severe" else "moderate"⟩]
  else if lux_actual > lux_target + 200 then
    [⟨"lighting", if lux_actual > lux_target + 400 then "severe" else "moderate"⟩]
  else []

/-- `calculate_env_score`, noise sub-score (lines 303-310). -/
def noise_score (noise_actual noise_max : α) : α :=
  if noise_actual ≤ noise_max then 100
  else if noise_actual ≤ noise_max + 5 then 80
  else if noise_actual ≤ noise_max + 10 then 60
  else max 0 (100 - (noise_actual - noise_max) * 5)

/-- `calculate_env_score`, noise issue detection (lines 314-328). -/
def noise_issues (noise_actual noise_max : α) : List EnvIssue :=
  let noise_over := noise_actual - noise_max
  if noise_over > 15 then [⟨"noise", "severe"⟩]
  else if noise_over > 5 then [⟨"noise", "moderate"⟩]
  else []

/-- `calculate_env_score`, humidity sub-score (lines 333-348). -/
def hum_score (hum_actual hum_min hum_max : α) : α :=
  if hum_min ≤ hum_actual ∧ hum_actual ≤ hum_max then 100
  else
    let hum_deviation :=
      if hum_actual < hum_min then hum_min - hum_actual else hum_actual - hum_max
    if hum_deviation ≤ 5 then 90
    else if hum_deviation ≤ 10 then 70
    else if hum_deviation ≤ 15 then 50
    else max 0 (100 - hum_deviation * 3)

/-- `calculate_env_score`, humidity issue detection (lines 352-366): the dry
side emits severity "moderate" only; the humid side escalates to "severe"
past `hum_max + 20`. -/
def humidity_issues (hum_actual hum_min hum_max : α) : List EnvIssue :=
  if hum_actual < hum_min - 10 then [⟨"humidity", "moderate"⟩]
  else if hum_actual > hum_max + 10 then
    [⟨"humidity", if hum_actual > hum_max + 20 then "severe" else "moderate"⟩]
  else []

/-- rule_engine.py lines 249-372: returns `(score, breakdown, issues)`. -/
def calculate_env_score
    (lux_actual lux_target noise_actual noise_max hum_actual hum_min hum_max : α) :
    α × EnvBreakdown α × List EnvIssue :=
  let lux_s := lighting_score lux_actual lux_target
  let noise_s := noise_score noise_actual noise_max
  let hum_s := hum_score hum_actual hum_min hum_max
  let breakdown : EnvBreakdown α := ⟨pyRound1 lux_s, pyRound1 noise_s, pyRound1 hum_s⟩
  let issues := lighting_issues lux_actual lux_target ++
    noise_issues noise_actual noise_max ++ humidity_issues hum_actual hum_min hum_max
  let total_score := lux_s * 0.35 + noise_s * 0.35 + hum_s * 0.3
  (pyRound1 total_score, breakdown, issues)

/-- rule_engine.py lines 395-401, applied through `.get(status, 1.5)`
(line 474): the five listed statuses, default 1.5 for any other key. -/
def STATUS_MAX_CORRECTION (status : String) : α :=
  if status = "Ideal" then 0.0
  else if status = "Optimalisasi" then 1.5
  else if status = "Peringatan" then 2.5
  else if status = "Kritis" then 3.0
  else if status = "Boros Energi" then 0.0
  else 1.5

/-- rule_engine.py lines 404-422. -/
def get_thermal_severity (pmv : α) : String :=
  if |pmv| ≤ 0.5 then "none"
  else if |pmv| ≤ 1.0 then "mild"
  else if |pmv| ≤ 1.5 then "moderate"
  else "severe"

/-- `determine_ac_control`, raw severity ramp (lines 462-470); reached only
when the severity is not "none". -/
def base_adjustment (pmv : α) : α :=
  if get_thermal_severity pmv = "mild" then 0.5 + (|pmv| - 0.5) * 1.5
  else if get_thermal_severity pmv = "moderate" then 1.25 + (|pmv| - 1.0) * 1.5
  else 2.0 + (|pmv| - 1.5) * 0.67

/-- `determine_ac_control`, line 475: `min(base_adjustment, max_correction)`. -/
def temp_adjustment (pmv : α) (status : String) : α :=
  min (base_adjustment pmv) (STATUS_MAX_CORRECTION status)

/-- `determine_ac_control`, fan selection (lines 481-490). -/
def fan_speed (pmv : α) : String :=
  if get_thermal_severity pmv = "mild" then (if |pmv| ≤ 0.8 then "auto" else "low")
  else if get_thermal_severity pmv = "moderate" then "medium"
  else "high"

/-- `determine_ac_control`, mode selection (lines 494-507). -/
def correction_mode (pmv : α) : String :=
  if pmv > 0 then "cool"
  else if get_thermal_severity pmv = "severe" then "fan"
  else if get_thermal_severity pmv = "moderate" then "dry"
  else "auto"

/-- `determine_ac_control`, the `int(round(...))` setpoint of lines 496/500,
before the final clamp of line 510. -/
def ac_temp_raw (pmv target_temp : α) (status : String) : ℤ :=
  if pmv > 0 then pyRound (target_temp - temp_adjustment pmv status)
  else pyRound (target_temp + temp_adjustment pmv status)

/-- rule_engine.py lines 425-512.  Each `return ACControl(...)` goes through
the pydantic validation of models.py (`ACControl_validate`); an `.error`
value models the ValidationError the constructor raises.  `ppd` and
`current_temp` are parameters the source never reads, kept for fidelity. -/
def determine_ac_control (pmv ppd current_temp target_temp : α)
    (occupancy : ℤ) (status : String) : Except ModelError ACControlFields :=
  if occupancy = 0 then ACControl_validate 24 "off" "auto"
  else if get_thermal_severity pmv = "none" then
    ACControl_validate (pyRound target_temp) "auto" "auto"
  else
    ACControl_validate (max 16 (min 30 (ac_temp_raw pmv target_temp status)))
      (correction_mode pmv) (fan_speed pmv)

/-- rule_engine.py lines 47-50. -/
def DEFAULT_MEAN_RADIANT_TEMP_OFFSET : ℝ := 0.0

/-- rule_engine.py line 48. -/
def DEFAULT_AIR_VELOCITY : ℝ := 0.1

/-- rule_engine.py line 49. -/
def DEFAULT_METABOLIC_RATE : ℝ := 1.2

/-- rule_engine.py line 50. -/
def DEFAULT_CLOTHING_INSULATION : ℝ := 0.5

/-- `calculate_pmv`, body of the fixed-point iteration (lines 185-188). -/
noncomputable def tcl_step (M W Icl fcl hc tr ta tcl : ℝ) : ℝ :=
  35.7 - 0.028 * (M - W) - Icl *
    (3.96e-8 * fcl * ((tcl + 273) ^ 4 - (tr + 273) ^ 4) + fcl * hc * (tcl - ta))

/-- `calculate_pmv`, the `for _ in range(100)` loop (lines 181-191): first
component the final `tcl`, second the number of iterations executed (the
`break` fires when `|tcl - tcl_old| < 0.001`). -/
noncomputable def tcl_loop (M W Icl fcl hc tr ta : ℝ) : ℕ → ℝ → ℝ × ℕ
  | 0, tcl => (tcl, 0)
  | n + 1, tcl =>
    let tcl' := tcl_step M W Icl fcl hc tr ta tcl
    if |tcl' - tcl| < 0.001 then (tcl', 1)
    else
      let rest := tcl_loop M W Icl fcl hc tr ta n tcl'
      (rest.1, rest.2 + 1)

/-- rule_engine.py lines 143-209, additionally exposing the loop's iteration
count as the second component (the source discards it). -/
noncomputable def calculate_pmv_core (ta tr vel rh met clo : ℝ) : ℝ × ℕ :=
  let M := met * 58.15
  let W : ℝ := 0
  let fcl := if clo ≤ 0.078 then 1 + 1.290 * clo else 1.05 + 0.645 * clo
  let Icl := clo * 0.155
  let pa := rh * 10 * Real.exp (16.6536 - 4030.183 / (ta + 235))
  let hc_natural := 2.38 * |35.7 - 0.028 * (M - W) - ta| ^ (0.25 : ℝ)
  let hc_forced := 12.1 * Real.sqrt vel
  let hc := max hc_natural hc_forced
  let it := tcl_loop M W Icl fcl hc tr ta 100 (35.7 - 0.028 * (M - W))
  let tcl := it.1
  let HL1 := 3.05e-3 * (5733 - 6.99 * (M - W) - pa)
  let HL2 := if (M - W) > 58.15 then 0.42 * ((M - W) - 58.15) else 0
  let HL3 := 1.7e-5 * M * (5867 - pa)
  let HL4 := 0.0014 * M * (34 - ta)
  let HL5 := 3.96e-8 * fcl * ((tcl + 273) ^ 4 - (tr + 273) ^ 4)
  let HL6 := fcl * hc * (tcl - ta)
  let L := (M - W) - HL1 - HL2 - HL3 - HL4 - HL5 - HL6
  let pmv := (0.303 * Real.exp (-0.036 * M) + 0.028) * L
  (max (-3) (min 3 (pyRound2 pmv)), it.2)

/-- `calculate_pmv` as the source returns it. -/
noncomputable def calculate_pmv (ta tr vel rh met clo : ℝ) : ℝ :=
  (calculate_pmv_core ta tr vel rh met clo).1

/-- How many iterations the fixed-point loop inside `calculate_pmv` executes. -/
noncomputable def pmv_loop_steps (ta tr vel rh met clo : ℝ) : ℕ :=
  (calculate_pmv_core ta tr vel rh met clo).2

/-- rule_engine.py lines 212-221. -/
noncomputable def calculate_ppd (pmv : ℝ) : ℝ :=
  pyRound1 (max 5 (min 100
    (100 - 95 * Real.exp (-0.03353 * pmv ^ 4 - 0.2179 * pmv ^ 2))))

/-- models.py `SensorData`. -/
structure SensorData (α : Type*) where
  hum : α
  temp : α
  noise : α
  light_level : α
  occupancy : ℤ

/-- models.py `Comfort`. -/
structure Comfort (α : Type*) where
  pmv : α
  ppd : α
  score : α
  state : String

/-- The numeric entries of the `pmv_inputs` dict of `evaluate` (its
constraint-note string is narrative and omitted). -/
structure PmvInputs (α : Type*) where
  ta : α
  tr : α
  vel : α
  rh : α
  met : α
  clo : α

/-- rule_engine.py `RuleResult` dataclass. -/
structure RuleResult (α : Type*) where
  comfort : Comfort α
  ac_control : ACControlFields
  target_temp : α
  target_hum_min : α
  target_hum_max : α
  target_lux : α
  target_noise_max : α
  env_score : α
  env_score_breakdown : EnvBreakdown α
  pmv_inputs : PmvInputs α
  temp_deviation : α
  hum_deviation : α
  env_issues : List EnvIssue
  primary_concern : String
  thermal_severity : String

/-- Steps 1 and 5 of `evaluate` (lines 538 and 571-577): resolve the
occupancy reference band and call `calculate_env_score` with exactly the
arguments of lines 573-577.  `evaluate` consumes its result unchanged. -/
def evaluate_env (sensor_data : SensorData α) : α × EnvBreakdown α × List EnvIssue :=
  let ref := get_reference_for_occupancy (α := α) sensor_data.occupancy
  calculate_env_score sensor_data.light_level ref.lux sensor_data.noise ref.noise_max
    sensor_data.hum ref.hum_min ref.hum_max

/-- rule_engine.py lines 518-635.  The one `ACControl(...)` construction
happens inside `determine_ac_control`; when its pydantic validation fails
the exception propagates out of `evaluate`, modelled by `Except.map` over
that result. -/
noncomputable def evaluate (sensor_data : SensorData ℝ) : Except ModelError (RuleResult ℝ) :=
  let ref := get_reference_for_occupancy (α := ℝ) sensor_data.occupancy
  let ta := sensor_data.temp
  let tr := ta + DEFAULT_MEAN_RADIANT_TEMP_OFFSET
  let vel := DEFAULT_AIR_VELOCITY
  let rh := sensor_data.hum
  let met := DEFAULT_METABOLIC_RATE
  let clo := DEFAULT_CLOTHING_INSULATION
  let pmv := calculate_pmv ta tr vel rh met clo
  let ppd := calculate_ppd pmv
  let status := get_status_from_ppd ppd sensor_data.occupancy
  let env := evaluate_env sensor_data
  let thermal_severity := get_thermal_severity pmv
  let thermal_problem := thermal_severity ≠ "none"
  let env_problem :=
    0 < (env.2.2.filter fun i => i.severity == "moderate" || i.severity == "severe").length
  let primary_concern :=
    if thermal_problem ∧ env_problem then "both"
    else if thermal_problem then "thermal"
    else if env_problem then "environmental"
    else "none"
  let temp_deviation := pyRound1 (sensor_data.temp - ref.target_temp)
  let hum_deviation :=
    if sensor_data.hum < ref.hum_min then pyRound1 (sensor_data.hum - ref.hum_min)
    else if sensor_data.hum > ref.hum_max then pyRound1 (sensor_data.hum - ref.hum_max)
    else 0.0
  (determine_ac_control pmv ppd sensor_data.temp ref.target_temp
      sensor_data.occupancy status).map fun ac_control =>
    ⟨⟨pmv, ppd, env.1, status⟩, ac_control, ref.target_temp, ref.hum_min, ref.hum_max,
      ref.lux, ref.noise_max, env.1, env.2.1, ⟨ta, tr, vel, rh, met, clo⟩,
      temp_deviation, hum_deviation, env.2.2, primary_concern, thermal_severity⟩

/-! ### Helper lemmas about Python rounding -/

theorem floor_le_pyRound (x : α) : ⌊x⌋ ≤ pyRound x := by
  unfold pyRound; split_ifs <;> omega

theorem pyRound_le_floor_add_one (x : α) : pyRound x ≤ ⌊x⌋ + 1 := by
  unfold pyRound; split_ifs <;> omega

theorem abs_pyRound_sub_le (x : α) : |(pyRound x : α) - x| ≤ 1 / 2 := by
  have h0 : (⌊x⌋ : α) ≤ x := Int.floor_le x
  have h1 : x < ⌊x⌋ + 1 := Int.lt_floor_add_one x
  unfold pyRound
  split_ifs with ha hb hc
  · rw [abs_le]; constructor <;> linarith
  · rw [abs_le]; push_cast; constructor <;> linarith
  · have hx : x - ⌊x⌋ = 1 / 2 := le_antisymm (not_lt.1 hb) (not_lt.1 ha)
    rw [abs_le]; constructor <;> linarith
  · have hx : x - ⌊x⌋ = 1 / 2 := le_antisymm (not_lt.1 hb) (not_lt.1 ha)
    rw [abs_le]; push_cast; constructor <;> linarith

theorem pyRound_mono {a b : α} (h : a ≤ b) : pyRound a ≤ pyRound b := by
  have hf : ⌊a⌋ ≤ ⌊b⌋ := Int.floor_le_floor h
  rcases lt_or_eq_of_le hf with hlt | heq
  · have h1 := pyRound_le_floor_add_one a
    have h2 := floor_le_pyRound b
    omega
  · have hcast : (⌊a⌋ : α) = (⌊b⌋ : α) := by exact_mod_cast heq
    have hra : a - ⌊a⌋ ≤ b - ⌊b⌋ := by rw [← hcast]; linarith
    by_cases ha2 : a - ⌊a⌋ < 1 / 2
    · have hpa : pyRound a = ⌊a⌋ := by unfold pyRound; rw [if_pos ha2]
      have h2 := floor_le_pyRound b
      omega
    · by_cases hb3 : 1 / 2 < b - ⌊b⌋
      · have hpb : pyRound b = ⌊b⌋ + 1 := by
          unfold pyRound
          rw [if_neg (not_lt.2 (le_trans (not_lt.1 ha2) hra)), if_pos hb3]
        have h1 := pyRound_le_floor_add_one a
        omega
      · have hab : a = b := by
          have e1 : a - ⌊a⌋ = 1 / 2 := le_antisymm (le_trans hra (not_lt.1 hb3)) (not_lt.1 ha2)
          have e2 : b - ⌊b⌋ = 1 / 2 := le_antisymm (not_lt.1 hb3)
            (le_trans (not_lt.1 ha2) hra)
          linarith
        rw [hab]

theorem pyRound_intCast (n : ℤ) : pyRound ((n : α)) = n := by
  unfold pyRound
  rw [Int.floor_intCast, if_pos] <;> norm_num

theorem pyRound1_mono {a b : α} (h : a ≤ b) : pyRound1 a ≤ pyRound1 b := by
  unfold pyRound1
  have h10 : a * 10 ≤ b * 10 := by linarith
  have hc : ((pyRound (a * 10) : ℤ) : α) ≤ ((pyRound (b * 10) : ℤ) : α) := by
    exact_mod_cast pyRound_mono h10
  linarith

/-- The loop of `get_status_from_ppd` never yields the occupancy-only label. -/
theorem status_scan_ne_boros (p : α) : status_scan PPD_STATUS_MAP p ≠ "Boros Energi" := by
  simp only [PPD_STATUS_MAP, status_scan]
  split_ifs <;> decide

/-- C1 (code_bug): for `occupancy == 0` the engine builds
`ACControl(temp=24, mode="off", fan="auto")` exactly as the spec says — but
models.py's `ACMode = Literal["cool", "fan", "dry", "heat"]` does not admit
`"off"`, so pydantic raises a ValidationError instead of producing that
control, and the exception propagates out of `evaluate` too: no AC control
is ever produced for an empty room. -/
theorem C1_occupancy_zero_mode_off_rejected :
    (∀ (pmv ppd current_temp target_temp : ℝ) (status : String),
      determine_ac_control pmv ppd current_temp target_temp 0 status =
        ACControl_validate 24 "off" "auto" ∧
      ACControl_validate 24 "off" "auto" =
        Except.error (ModelError.badMode "off")) ∧
    (∀ s : SensorData ℝ, s.occupancy = 0 →
      evaluate s = Except.error (ModelError.badMode "off")) := by
  have hval : ACControl_validate 24 "off" "auto" =
      Except.error (ModelError.badMode "off") := by
    simp +decide [ACControl_validate, ACMode_values]
  have hdet : ∀ (pmv ppd current_temp target_temp : ℝ) (status : String),
      determine_ac_control pmv ppd current_temp target_temp 0 status =
        ACControl_validate 24 "off" "auto" := by
    intro pmv ppd current_temp target_temp status
    simp [determine_ac_control]
  constructor
  · intro pmv ppd ct tt status
    exact ⟨hdet pmv ppd ct tt status, hval⟩
  · intro s hs
    simp only [evaluate, hs, hdet, hval, Except.map]

/-- C1, concrete instance: an all-plausible reading with an empty room makes
`evaluate` fail with the rejected mode "off". -/
theorem C1_occupancy_zero_mode_off_rejected_witness :
    evaluate ⟨50, 24, 40, 400, 0⟩ = Except.error (ModelError.badMode "off") :=
  C1_occupancy_zero_mode_off_rejected.2 ⟨50, 24, 40, 400, 0⟩ rfl

/-- C2 (code_bug): in the neutral zone (thermal severity "none", occupied
room) the engine builds `ACControl(temp=round(target_temp), mode="auto",
fan="auto")` as the spec says, but `"auto"` is not a member of
`ACMode = Literal["cool", "fan", "dry", "heat"]`, so the pydantic constructor
raises instead of returning the control. -/
theorem C2_neutral_zone_mode_auto_rejected (pmv ppd current_temp target_temp : ℚ)
    (occupancy : ℤ) (status : String) (hocc : occupancy ≠ 0)
    (hsev : get_thermal_severity pmv = "none")
    (hlo : 10 ≤ pyRound target_temp) (hhi : pyRound target_temp ≤ 32) :
    determine_ac_control pmv ppd current_temp target_temp occupancy status =
      ACControl_validate (pyRound target_temp) "auto" "auto" ∧
    ACControl_validate (pyRound target_temp) "auto" "auto" =
      Except.error (ModelError.badMode "auto") := by
  constructor
  · rw [determine_ac_control, if_neg hocc, if_pos hsev]
  · rw [ACControl_validate, if_neg (not_not_intro ⟨hlo, hhi⟩), if_pos (by decide)]

/-- C2, concrete instance: pmv 0 over the low-occupancy band target 23.5. -/
theorem C2_neutral_zone_mode_auto_rejected_witness :
    determine_ac_control (0 : ℚ) 5 24 23.5 5 "Ideal" =
      ACControl_validate (pyRound (23.5 : ℚ)) "auto" "auto" ∧
    ACControl_validate (pyRound (23.5 : ℚ)) "auto" "auto" =
      Except.error (ModelError.badMode "auto") :=
  C2_neutral_zone_mode_auto_rejected 0 5 24 23.5 5 "Ideal" (by decide)
    (by norm_num [get_thermal_severity]) (by norm_num [pyRound]) (by norm_num [pyRound])

/-- C4 (confirmed): `get_status_from_ppd` answers "Boros Energi" exactly for
`occupancy == 0`, whatever the PPD; an occupied room never gets that label. -/
theorem C4_boros_energi_iff_occupancy_zero (ppd : ℚ) (occupancy : ℤ) :
    get_status_from_ppd ppd occupancy = "Boros Energi" ↔ occupancy = 0 := by
  unfold get_status_from_ppd
  split_ifs with h
  · simp [h]
  · simp [h, status_scan_ne_boros ppd]

/-- C7's claim is false below the first bucket: the first membership test is
`ppd_min == 0 and ppd <= ppd_max`, so a PPD of −1 — outside every bucket —
classifies "Ideal", not the defensive "Kritis" the claim requires. -/
theorem C7_counterexample :
    get_status_from_ppd (-1 : ℚ) 1 = "Ideal" ∧ ¬ ((0 : ℚ) ≤ -1) ∧ "Ideal" ≠ "Kritis" := by
  refine ⟨?_, by norm_num, by decide⟩
  norm_num [get_status_from_ppd, status_scan, PPD_STATUS_MAP]

/-- C7 (corrected): for occupied rooms the buckets behave as claimed on and
above 0 — `(0,10]` (with 0) → Ideal, `(10,25]` → Optimalisasi, `(25,50]` →
Peringatan, and everything above 50 (including any PPD above 100) → Kritis —
but a PPD below 0 lands in the first bucket ("Ideal"), because the first
bucket's test `ppd <= 10` has no lower bound. -/
theorem C7_ppd_buckets (ppd : ℚ) (occupancy : ℤ) (hocc : 0 < occupancy) :
    get_status_from_ppd ppd occupancy =
      if ppd ≤ 10 then "Ideal"
      else if ppd ≤ 25 then "Optimalisasi"
      else if ppd ≤ 50 then "Peringatan"
      else "Kritis" := by
  have h0 : occupancy ≠ 0 := by omega
  rw [get_status_from_ppd, if_neg h0]
  simp only [PPD_STATUS_MAP, status_scan]
  rcases le_or_lt ppd 10 with h10 | h10
  · rw [if_pos (Or.inr ⟨trivial, h10⟩), if_pos h10]
  · have c1f : ¬ (((0 : ℚ) < ppd ∧ ppd ≤ 10) ∨ (True ∧ ppd ≤ 10)) := by
      rintro (⟨_, h⟩ | ⟨_, h⟩) <;> linarith
    rw [if_neg c1f]
    rcases le_or_lt ppd 25 with h25 | h25
    · rw [if_pos (Or.inl ⟨h10, h25⟩), if_neg (by linarith), if_pos h25]
    · have c2f : ¬ (((10 : ℚ) < ppd ∧ ppd ≤ 25) ∨ ((10 : ℚ) = 0 ∧ ppd ≤ 25)) := by
        rintro (⟨_, h⟩ | ⟨h, _⟩) <;> linarith
      rw [if_neg c2f]
      rcases le_or_lt ppd 50 with h50 | h50
      · rw [if_pos (Or.inl ⟨h25, h50⟩), if_neg (by linarith), if_neg (by linarith), if_pos h50]
      · have c3f : ¬ (((25 : ℚ) < ppd ∧ ppd ≤ 50) ∨ ((25 : ℚ) = 0 ∧ ppd ≤ 50)) := by
          rintro (⟨_, h⟩ | ⟨h, _⟩) <;> linarith
        rw [if_neg c3f]
        rcases le_or_lt ppd 100 with h100 | h100
        · rw [if_pos (Or.inl ⟨h50, h100⟩), if_neg (by linarith), if_neg (by linarith),
            if_neg (by linarith)]
        · have c4f : ¬ (((50 : ℚ) < ppd ∧ ppd ≤ 100) ∨ ((50 : ℚ) = 0 ∧ ppd ≤ 100)) := by
            rintro (⟨_, h⟩ | ⟨h, _⟩) <;> linarith
          rw [if_neg c4f, if_neg (by linarith), if_neg (by linarith), if_neg (by linarith)]

/-- C7, concrete boundary instance: ppd 10.01 is Optimalisasi. -/
theorem C7_ppd_buckets_witness :
    get_status_from_ppd (10.01 : ℚ) 1 = "Optimalisasi" := by
  rw [C7_ppd_buckets 10.01 1 (by norm_num)]
  norm_num

/-- C10 (confirmed): an occupancy matching no row of `REFERENCE_TABLE` —
every negative occupancy included — resolves to the last row
(band 31–999, target 28.5 °C); in particular occupancy −1 gets the
highest-occupancy band, and the lookup always returns a row. -/
theorem C10_reference_fallback_last_row :
    (∀ occupancy : ℤ,
      (∀ r ∈ REFERENCE_TABLE (α := ℚ), ¬ (r.occ_min ≤ occupancy ∧ occupancy ≤ r.occ_max)) →
      get_reference_for_occupancy (α := ℚ) occupancy = ⟨31, 999, 28.5, 71, 75, 600, 60⟩) ∧
    get_reference_for_occupancy (α := ℚ) (-1) = ⟨31, 999, 28.5, 71, 75, 600, 60⟩ := by
  have hgen : ∀ occupancy : ℤ,
      (∀ r ∈ REFERENCE_TABLE (α := ℚ), ¬ (r.occ_min ≤ occupancy ∧ occupancy ≤ r.occ_max)) →
      get_reference_for_occupancy (α := ℚ) occupancy = ⟨31, 999, 28.5, 71, 75, 600, 60⟩ := by
    intro occupancy h
    unfold get_reference_for_occupancy
    have hnone : (REFERENCE_TABLE (α := ℚ)).find?
        (fun r => decide (r.occ_min ≤ occupancy ∧ occupancy ≤ r.occ_max)) = none := by
      rw [List.find?_eq_none]
      intro r hr
      simpa using h r hr
    rw [hnone]
  exact ⟨hgen, hgen (-1) (by decide)⟩

/-- C10, concrete instance: occupancy 1000 exceeds every band and falls back
to the last row. -/
theorem C10_reference_fallback_last_row_witness :
    get_reference_for_occupancy (α := ℚ) 1000 = ⟨31, 999, 28.5, 71, 75, 600, 60⟩ :=
  C10_reference_fallback_last_row.1 1000 (by decide)

theorem STATUS_MAX_CORRECTION_nonneg (status : String) :
    (0 : α) ≤ STATUS_MAX_CORRECTION status := by
  unfold STATUS_MAX_CORRECTION
  split_ifs <;> norm_num

theorem base_adjustment_nonneg (pmv : α) : 0 ≤ base_adjustment pmv := by
  have h0 : (0 : α) ≤ |pmv| := abs_nonneg pmv
  unfold base_adjustment
  split_ifs with h1 h2
  · unfold get_thermal_severity at h1
    split_ifs at h1 with g1 g2 g3 <;>
      first
      | exact absurd h1 (by decide)
      | linarith [not_le.1 g1]
  · unfold get_thermal_severity at h2
    split_ifs at h2 with g1 g2 g3 <;>
      first
      | exact absurd h2 (by decide)
      | linarith [not_le.1 g2]
  · linarith

/-- C3's claim is false as stated: reached through the real pipeline with
pmv 0.84 (so ppd 19.9, status "Optimalisasi", target 23.5 from the
1–10-occupancy band), the mild ramp gives adjustment 1.01 ≤ 1.5, yet the
setpoint is `round(23.5 − 1.01) = 22` while `round(23.5) = 24`: the setpoint
sits 2 °C from the rounded target, above the 1.5 °C Optimalisasi ceiling,
because target and setpoint are rounded separately. -/
theorem C3_counterexample :
    determine_ac_control (0.84 : ℚ) 19.9 24 23.5 5 "Optimalisasi" =
      Except.ok ⟨22, "cool", "low"⟩ ∧
    ac_temp_raw (0.84 : ℚ) 23.5 "Optimalisasi" = 22 ∧
    pyRound (23.5 : ℚ) = 24 ∧
    STATUS_MAX_CORRECTION "Optimalisasi" = (1.5 : ℚ) ∧
    ¬ (|(22 : ℚ) - 24| ≤ 1.5) := by
  have h5 : ((5 : ℤ) = 0) = False := by decide
  have hsev : get_thermal_severity (0.84 : ℚ) = "mild" := by
    norm_num [get_thermal_severity, abs_of_pos]
  have hmax : STATUS_MAX_CORRECTION "Optimalisasi" = (1.5 : ℚ) := by
    simp +decide [STATUS_MAX_CORRECTION]
  have hbase : base_adjustment (0.84 : ℚ) = 1.01 := by
    rw [base_adjustment, hsev]
    simp +decide only []
    norm_num [abs_of_pos]
  have hadj : temp_adjustment (0.84 : ℚ) "Optimalisasi" = 1.01 := by
    rw [temp_adjustment, hbase, hmax, min_eq_left (by norm_num)]
  have htemp : ac_temp_raw (0.84 : ℚ) 23.5 "Optimalisasi" = 22 := by
    rw [ac_temp_raw, if_pos (by norm_num : (0.84 : ℚ) > 0), hadj]
    norm_num [pyRound]
  have hfan : fan_speed (0.84 : ℚ) = "low" := by
    rw [fan_speed, hsev]
    simp +decide only []
    norm_num [abs_of_pos]
  have hmode : correction_mode (0.84 : ℚ) = "cool" := by
    rw [correction_mode, if_pos (by norm_num : (0.84 : ℚ) > 0)]
  refine ⟨?_, htemp, by norm_num [pyRound], hmax, by norm_num⟩
  simp only [determine_ac_control, h5, if_false, hsev, htemp, hfan, hmode]
  simp +decide [ACControl_validate, ACMode_values, ACFanSpeed_values]

/-- C3 (corrected): on every input reaching the correction steps the applied
correction `temp_adjustment` is clamped into `[0, STATUS_MAX[s]]` — a
lower-severity status never authorizes a larger correction, whatever the
severity ramp computes — and the integer setpoint of lines 496/500 stays
within `STATUS_MAX[s] + 1` of the rounded target; the extra 1 °C is exactly
the slack the two separate integer roundings can add, and C3's stated bound
`STATUS_MAX[s]` itself does not survive them. -/
theorem C3_status_ceiling (pmv target_temp : ℚ) (status : String)
    (hsev : get_thermal_severity pmv ≠ "none") :
    0 ≤ temp_adjustment pmv status ∧
    temp_adjustment pmv status ≤ STATUS_MAX_CORRECTION status ∧
    |(ac_temp_raw pmv target_temp status : ℚ) - (pyRound target_temp : ℚ)| ≤
      STATUS_MAX_CORRECTION status + 1 := by
  have hadj0 : 0 ≤ temp_adjustment pmv status :=
    le_min (base_adjustment_nonneg pmv) (STATUS_MAX_CORRECTION_nonneg status)
  have hadjle : temp_adjustment pmv status ≤ STATUS_MAX_CORRECTION status :=
    min_le_right _ _
  refine ⟨hadj0, hadjle, ?_⟩
  have h2 := abs_pyRound_sub_le (α := ℚ) target_temp
  rw [abs_le] at h2
  unfold ac_temp_raw
  split_ifs with hp
  · have h1 := abs_pyRound_sub_le (α := ℚ) (target_temp - temp_adjustment pmv status)
    rw [abs_le] at h1
    rw [abs_le]
    constructor <;> linarith [h1.1, h1.2, h2.1, h2.2]
  · have h1 := abs_pyRound_sub_le (α := ℚ) (target_temp + temp_adjustment pmv status)
    rw [abs_le] at h1
    rw [abs_le]
    constructor <;> linarith [h1.1, h1.2, h2.1, h2.2]

/-- C3, concrete instance of the amended bounds at the counterexample's
input. -/
theorem C3_status_ceiling_witness :
    0 ≤ temp_adjustment (0.84 : ℚ) "Optimalisasi" ∧
    temp_adjustment (0.84 : ℚ) "Optimalisasi" ≤ STATUS_MAX_CORRECTION "Optimalisasi" ∧
    |(ac_temp_raw (0.84 : ℚ) 23.5 "Optimalisasi" : ℚ) - (pyRound (23.5 : ℚ) : ℚ)| ≤
      STATUS_MAX_CORRECTION "Optimalisasi" + 1 :=
  C3_status_ceiling 0.84 23.5 "Optimalisasi" (by
    have h : get_thermal_severity (0.84 : ℚ) = "mild" := by
      norm_num [get_thermal_severity, abs_of_pos]
    rw [h]
    decide)

theorem lighting_issues_spec (lux_actual lux_target : α) :
    (lighting_issues lux_actual lux_target).filter (fun i => i.factor == "humidity") = [] ∧
    ∀ i ∈ lighting_issues lux_actual lux_target,
      i.severity = "moderate" ∨ i.severity = "severe" := by
  unfold lighting_issues
  split_ifs <;> simp +decide [List.filter]

theorem noise_issues_spec (noise_actual noise_max : α) :
    (noise_issues noise_actual noise_max).filter (fun i => i.factor == "humidity") = [] ∧
    ∀ i ∈ noise_issues noise_actual noise_max,
      i.severity = "moderate" ∨ i.severity = "severe" := by
  unfold noise_issues
  dsimp only
  split_ifs <;> simp +decide [List.filter]

theorem humidity_issues_spec (hum_actual hum_min hum_max : α) :
    (humidity_issues hum_actual hum_min hum_max).filter (fun i => i.factor == "humidity") =
      humidity_issues hum_actual hum_min hum_max ∧
    ∀ i ∈ humidity_issues hum_actual hum_min hum_max,
      i.severity = "moderate" ∨ i.severity = "severe" := by
  unfold humidity_issues
  split_ifs <;> simp +decide [List.filter]

/-- C6's claim is false on the dry side: humidity 20 % against band
[45, 55] is 25 points below the band — beyond the claimed ±20 "severe"
threshold — yet the emitted issue's severity is "moderate": the dry branch
of lines 352-358 never escalates. -/
theorem C6_counterexample :
    (calculate_env_score (400 : ℚ) 400 40 45 20 45 55).2.2 =
      [⟨"humidity", "moderate"⟩] ∧
    (45 : ℚ) - 20 > 20 ∧ "moderate" ≠ "severe" := by
  refine ⟨?_, by norm_num, by decide⟩
  norm_num [calculate_env_score, lighting_issues, noise_issues, humidity_issues]

/-- C6 (corrected): a humidity issue is emitted iff the reading is more than
10 points outside the band, and its severity is "severe" iff the reading is
more than 20 points above the upper bound — the humid side only; a dry-side
issue (humidity below `hum_min − 10`) is always "moderate", however far below
the band the reading lies.  All issue severities (all three factors) are in
{moderate, severe}. -/
theorem C6_humidity_issue_thresholds
    (lux_actual lux_target noise_actual noise_max hum_actual hum_min hum_max : ℚ) :
    ((calculate_env_score lux_actual lux_target noise_actual noise_max
        hum_actual hum_min hum_max).2.2.filter (fun i => i.factor == "humidity") =
      if hum_actual < hum_min - 10 then [⟨"humidity", "moderate"⟩]
      else if hum_actual > hum_max + 10 then
        [⟨"humidity", if hum_actual > hum_max + 20 then "severe" else "moderate"⟩]
      else []) ∧
    ∀ i ∈ (calculate_env_score lux_actual lux_target noise_actual noise_max
        hum_actual hum_min hum_max).2.2,
      i.severity = "moderate" ∨ i.severity = "severe" := by
  have hl := lighting_issues_spec lux_actual lux_target
  have hn := noise_issues_spec noise_actual noise_max
  have hh := humidity_issues_spec hum_actual hum_min hum_max
  constructor
  · simp only [calculate_env_score, List.filter_append, hl.1, hn.1, hh.1,
      List.nil_append]
    rfl
  · intro i hi
    simp only [calculate_env_score, List.mem_append] at hi
    rcases hi with (hi | hi) | hi
    exacts [hl.2 i hi, hn.2 i hi, hh.2 i hi]

/-- C6, concrete instance: the filter equation and the severity-range fact
at the counterexample's input (dry reading 20 % against band [45, 55]). -/
theorem C6_humidity_issue_thresholds_witness :
    ((calculate_env_score (400 : ℚ) 400 40 45 20 45 55).2.2.filter
        (fun i => i.factor == "humidity") =
      if (20 : ℚ) < 45 - 10 then [⟨"humidity", "moderate"⟩]
      else if (20 : ℚ) > 55 + 10 then
        [⟨"humidity", if (20 : ℚ) > 55 + 20 then "severe" else "moderate"⟩]
      else []) ∧
    (⟨"humidity", "moderate"⟩ ∈
        (calculate_env_score (400 : ℚ) 400 40 45 20 45 55).2.2 →
      EnvIssue.severity ⟨"humidity", "moderate"⟩ = "moderate" ∨
      EnvIssue.severity ⟨"humidity", "moderate"⟩ = "severe") :=
  ⟨(C6_humidity_issue_thresholds 400 400 40 45 20 45 55).1,
   (C6_humidity_issue_thresholds 400 400 40 45 20 45 55).2 ⟨"humidity", "moderate"⟩⟩

theorem calculate_ppd_neg_eq (x : ℝ) : calculate_ppd (-x) = calculate_ppd x := by
  unfold calculate_ppd
  have h4 : (-x) ^ 4 = x ^ 4 := by ring
  have h2 : (-x) ^ 2 = x ^ 2 := by ring
  rw [h4, h2]

theorem calculate_ppd_abs_eq (x : ℝ) : calculate_ppd x = calculate_ppd |x| := by
  rcases le_or_lt 0 x with h | h
  · rw [abs_of_nonneg h]
  · rw [abs_of_neg h, calculate_ppd_neg_eq]

theorem calculate_ppd_mono_of_nonneg {a b : ℝ} (h0 : 0 ≤ a) (hab : a ≤ b) :
    calculate_ppd a ≤ calculate_ppd b := by
  unfold calculate_ppd
  apply pyRound1_mono
  apply max_le_max (le_refl (5 : ℝ))
  apply min_le_min (le_refl (100 : ℝ))
  have h4 : a ^ 4 ≤ b ^ 4 := pow_le_pow_left h0 hab 4
  have h2 : a ^ 2 ≤ b ^ 2 := pow_le_pow_left h0 hab 2
  have hexp : Real.exp (-0.03353 * b ^ 4 - 0.2179 * b ^ 2) ≤
      Real.exp (-0.03353 * a ^ 4 - 0.2179 * a ^ 2) :=
    Real.exp_le_exp.2 (by linarith)
  linarith

theorem calculate_ppd_zero : calculate_ppd 0 = 5 := by
  unfold calculate_ppd
  have h1 : (100 : ℝ) - 95 * Real.exp (-0.03353 * (0 : ℝ) ^ 4 - 0.2179 * (0 : ℝ) ^ 2) = 5 := by
    norm_num [Real.exp_zero]
  rw [h1, min_eq_right (by norm_num : (5 : ℝ) ≤ 100), max_self]
  unfold pyRound1
  have h50 : pyRound ((50 : ℝ)) = 50 := by
    have h : ((50 : ℤ) : ℝ) = 50 := by norm_num
    rw [← h, pyRound_intCast]
  rw [show (5 : ℝ) * 10 = 50 by norm_num, h50]
  norm_num

theorem calculate_ppd_range (x : ℝ) : 5 ≤ calculate_ppd x ∧ calculate_ppd x ≤ 100 := by
  unfold calculate_ppd pyRound1
  set c := max 5 (min 100 (100 - 95 * Real.exp (-0.03353 * x ^ 4 - 0.2179 * x ^ 2))) with hc
  have hc5 : (5 : ℝ) ≤ c := le_max_left _ _
  have hc100 : c ≤ 100 := max_le (by norm_num) (min_le_left _ _)
  have h50 : pyRound ((50 : ℝ)) = 50 := by
    have h : ((50 : ℤ) : ℝ) = 50 := by norm_num
    rw [← h, pyRound_intCast]
  have h1000 : pyRound ((1000 : ℝ)) = 1000 := by
    have h : ((1000 : ℤ) : ℝ) = 1000 := by norm_num
    rw [← h, pyRound_intCast]
  have hlo : (50 : ℤ) ≤ pyRound (c * 10) := by
    rw [← h50]; exact pyRound_mono (by linarith)
  have hhi : pyRound (c * 10) ≤ 1000 := by
    rw [← h1000]; exact pyRound_mono (by linarith)
  have hlo2 : (50 : ℝ) ≤ (pyRound (c * 10) : ℝ) := by exact_mod_cast hlo
  have hhi2 : ((pyRound (c * 10) : ℝ)) ≤ 1000 := by exact_mod_cast hhi
  constructor <;> linarith

/-- C5 (confirmed): `calculate_ppd` is even on [−3, 3] (indeed everywhere),
`calculate_ppd 0 = 5.0` exactly, it is monotone non-decreasing in `|pmv|`,
and its value always lies in [5, 100]. -/
theorem C5_ppd_shape :
    (∀ x : ℝ, -3 ≤ x → x ≤ 3 → calculate_ppd x = calculate_ppd (-x)) ∧
    calculate_ppd 0 = 5 ∧
    (∀ a b : ℝ, |a| ≤ |b| → calculate_ppd a ≤ calculate_ppd b) ∧
    (∀ x : ℝ, 5 ≤ calculate_ppd x ∧ calculate_ppd x ≤ 100) := by
  refine ⟨fun x _ _ => (calculate_ppd_neg_eq x).symm, calculate_ppd_zero, ?_,
    calculate_ppd_range⟩
  intro a b h
  rw [calculate_ppd_abs_eq a, calculate_ppd_abs_eq b]
  exact calculate_ppd_mono_of_nonneg (abs_nonneg a) h

/-- C5, concrete instances: evenness at 1 and monotonicity from 1 to −2. -/
theorem C5_ppd_shape_witness :
    calculate_ppd 1 = calculate_ppd (-1) ∧ calculate_ppd 1 ≤ calculate_ppd (-2) :=
  ⟨C5_ppd_shape.1 1 (by norm_num) (by norm_num),
   C5_ppd_shape.2.2.1 1 (-2) (by rw [abs_one, abs_neg]; norm_num [abs_two])⟩

theorem tcl_loop_steps_le (M W Icl fcl hc tr ta : ℝ) :
    ∀ (n : ℕ) (tcl : ℝ), (tcl_loop M W Icl fcl hc tr ta n tcl).2 ≤ n := by
  intro n
  induction n with
  | zero => intro tcl; exact le_refl 0
  | succ k ih =>
    intro tcl
    rw [tcl_loop]
    dsimp only
    split_ifs with h
    · omega
    · have := ih (tcl_step M W Icl fcl hc tr ta tcl)
      omega

/-- C9 (confirmed): the fixed-point iteration inside `calculate_pmv` executes
at most 100 steps on every input, converged or not, and the function always
returns a value (clamped into [−3, 3]); there is no error branch, so
non-convergence is accepted silently.  The hypothesis `ta ≠ −235` mirrors the
claim's domain caveat about the vapor-pressure singularity; the bounds hold
regardless of it in this exact-arithmetic model, where division is total. -/
theorem C9_pmv_loop_bounded (ta tr vel rh met clo : ℝ) (h : ta ≠ -235) :
    pmv_loop_steps ta tr vel rh met clo ≤ 100 ∧
    -3 ≤ calculate_pmv ta tr vel rh met clo ∧ calculate_pmv ta tr vel rh met clo ≤ 3 := by
  refine ⟨?_, ?_, ?_⟩
  · simp only [pmv_loop_steps, calculate_pmv_core]
    exact tcl_loop_steps_le _ _ _ _ _ _ _ 100 _
  · simp only [calculate_pmv, calculate_pmv_core]
    exact le_max_left _ _
  · simp only [calculate_pmv, calculate_pmv_core]
    exact max_le (by norm_num) (min_le_left _ _)

/-- C9, concrete instance at the spec's reference scenario inputs. -/
theorem C9_pmv_loop_bounded_witness :
    pmv_loop_steps 24 24 0.1 50 1.2 0.5 ≤ 100 ∧
    -3 ≤ calculate_pmv 24 24 0.1 50 1.2 0.5 ∧ calculate_pmv 24 24 0.1 50 1.2 0.5 ≤ 3 :=
  C9_pmv_loop_bounded 24 24 0.1 50 1.2 0.5 (by norm_num)

theorem except_map_eq_ok {ε β γ : Type*} (f : β → γ) (e : Except ε β) (r : γ)
    (h : e.map f = Except.ok r) : ∃ a, e = Except.ok a ∧ r = f a := by
  cases e with
  | error err => simp [Except.map] at h
  | ok a =>
    simp [Except.map] at h
    exact ⟨a, rfl, h.symm⟩

/-- C8 (confirmed): temperature has no path into the Environmental Scorer.
First conjunct: two readings agreeing on humidity, noise, light level and
occupancy — so differing at most in temperature — give identical
`(env_score, env_score_breakdown, env_issues)` triples from the scoring step
of `evaluate` (lines 571-577, `evaluate_env`).  Second conjunct: whenever
`evaluate` produces a result at all, its `env_score`, `env_score_breakdown`
and `env_issues` fields are exactly that triple. -/
theorem C8_env_score_ignores_temperature :
    (∀ s1 s2 : SensorData ℝ, s1.hum = s2.hum → s1.noise = s2.noise →
      s1.light_level = s2.light_level → s1.occupancy = s2.occupancy →
      evaluate_env s1 = evaluate_env s2) ∧
    (∀ (s : SensorData ℝ) (r : RuleResult ℝ), evaluate s = Except.ok r →
      r.env_score = (evaluate_env s).1 ∧
      r.env_score_breakdown = (evaluate_env s).2.1 ∧
      r.env_issues = (evaluate_env s).2.2) := by
  constructor
  · intro s1 s2 hhum hnoise hlight hocc
    unfold evaluate_env
    rw [hocc, hhum, hnoise, hlight]
  · intro s r hr
    unfold evaluate at hr
    obtain ⟨ac, _, hrf⟩ := except_map_eq_ok _ _ _ hr
    subst hrf
    exact ⟨rfl, rfl, rfl⟩

/-- C8, concrete instance: readings at 24 °C and 30 °C, all else equal,
produce the same environmental triple. -/
theorem C8_env_score_ignores_temperature_witness :
    evaluate_env (⟨50, 24, 40, 400, 5⟩ : SensorData ℝ) =
      evaluate_env (⟨50, 30, 40, 400, 5⟩ : SensorData ℝ) :=
  C8_env_score_ignores_temperature.1 ⟨50, 24, 40, 400, 5⟩ ⟨50, 30, 40, 400, 5⟩
    rfl rfl rfl rfl

end RuleEngine
